import Mathlib

/-
Verification of the state-arbitration engine and animation renderer of the
ESP32 Smart Presence Lamp (ESP32_PresenceSmartHub_clean.ino).

The sketch's global mutable variables are gathered into one explicit state
record `SysState`.  Wall-clock `millis()` is a `Nat` supplied to each handler;
the LED strip is modelled logically as a list of packed 24-bit RGB values plus
a global brightness scalar (the spec scopes the strip library out as a
collaborator: only the logical buffer matters).  The pseudo random generator
is an environment function indexed by the draw number within a tick.
-/

namespace Lamp

def NUM_LEDS : Nat := 19

/- Animation segment used by the weather kernel: NUM_LEDS - 4. -/
def ANIMATION_LEDS : Nat := NUM_LEDS - 4

inductive Effect
  | EFFECT_BREATH
  | EFFECT_FAVORITE
  | EFFECT_NIGHT
  | EFFECT_WEATHER
  | EFFECT_STATIC
  | EFFECT_PRIVATE_PULSE
  deriving DecidableEq, Repr

inductive GeoState
  | GEO_NONE
  | GEO_ARRIVED
  | GEO_SETTLED
  | GEO_LEAVE
  | GEO_DRIVING
  deriving DecidableEq, Repr

/- Special dates table (struct SpecialEvent dates[]). -/
structure SpecialEvent where
  month : Nat
  day : Nat
  name : String
  deriving DecidableEq, Repr

def dates : List SpecialEvent :=
  [⟨1, 1, "NewYear"⟩, ⟨2, 14, "Valentines"⟩, ⟨2, 22, "HerBirthday"⟩,
   ⟨5, 3, "HisBirthday"⟩, ⟨8, 7, "Anniversary"⟩, ⟨12, 25, "Christmas"⟩]

def numDates : Nat := dates.length

/- All mutable globals of the sketch that the core logic touches.
`currentTemperature` is a float in the source; it is only compared against
the integer thresholds 40/70/85 by the temperature indicator, so it is
modelled as an Int.  `drivingOn` is the function-local `static bool on` of
runDriving. -/
structure SysState where
  currentEffect : Effect
  currentGeoState : GeoState
  currentWeatherCondition : String
  currentTemperature : Int
  lastWeatherCheck : Nat
  lastDateCheck : Nat
  lastAnimMillis : Nat
  currentStateStart : Nat
  lastColorUpdate : Nat
  lastFavColorUpdate : Nat
  lastNightModeUpdate : Nat
  lastPulseUpdate : Nat
  lastArriveUpdate : Nat
  lastLeaveUpdate : Nat
  lastDrivingUpdate : Nat
  lastWeatherAnimUpdate : Nat
  animPos : Nat
  animBrightness : Int
  animStep : Int
  pulseStep : Nat
  brightnessStep : Int
  brightness : Int
  stateDuration : Nat
  staticColorBrightness : Nat
  drivingOn : Bool
  lastPlayedDay : List Int
  dateActive : Bool
  activeEventIndex : Int
  pixels : List Nat
  stripBrightness : Nat
  deriving DecidableEq, Repr

/- C-style conversion of an int to uint8_t (modular). -/
def u8 (x : Int) : Nat := (x.emod 256).toNat

/- strip.Color(r, g, b): pack into 0x00RRGGBB; the library takes uint8_t
arguments, so int callers are truncated mod 256. -/
def stripColor (r g b : Int) : Nat := u8 r * 65536 + u8 g * 256 + u8 b

/- strip.getPixelColor(i): out of range reads give 0 in the library. -/
def getPixel (px : List Nat) (i : Nat) : Nat := px.getD i 0

/- strip.setPixelColor(i, c): out of range writes are ignored. -/
def setPixel (px : List Nat) (i : Nat) (c : Nat) : List Nat := px.set i c

/- strip.fill(c) with no range: whole strip. -/
def fillAll (px : List Nat) (c : Nat) : List Nat := px.map (fun _ => c)

/- strip.clear(). -/
def clearAll (px : List Nat) : List Nat := px.map (fun _ => 0)

def pixMapIdxFrom (f : Nat → Nat → Nat) (i : Nat) : List Nat → List Nat
  | [] => []
  | c :: rest => f i c :: pixMapIdxFrom f (i + 1) rest

def pixMapIdx (f : Nat → Nat → Nat) (px : List Nat) : List Nat :=
  pixMapIdxFrom f 0 px

/- strip.fill(c, first, count). -/
def fillRange (px : List Nat) (c : Nat) (first count : Nat) : List Nat :=
  pixMapIdx (fun i old => if first ≤ i ∧ i < first + count then c else old) px

/- Adafruit_NeoPixel::ColorHSV of the strip library (hue 0..65535,
sextant form), reproduced so the kernels that call it stay executable. -/
def colorHSV (hue sat val : Nat) : Nat :=
  let h := ((hue % 65536) * 1530 + 32768) / 65536
  let rgb : Nat × Nat × Nat :=
    if h < 510 then
      if h < 255 then (255, h, 0) else (510 - h, 255, 0)
    else if h < 1020 then
      if h < 765 then (0, 255, h - 510) else (0, 1020 - h, 255)
    else if h < 1530 then
      if h < 1275 then (h - 1020, 0, 255) else (255, 0, 1530 - h)
    else (255, 0, 0)
  let v1 := 1 + val % 256
  let s1 := 1 + sat % 256
  let s2 := 255 - sat % 256
  ((((rgb.1 * s1) / 256 + s2) * v1) &&& 0xff00) * 256 +
    ((((rgb.2.1 * s1) / 256 + s2) * v1) &&& 0xff00) +
    ((((rgb.2.2 * s1) / 256 + s2) * v1) / 256)

/- ASCII lowercase folding, as Arduino String::toLowerCase performs it.
(Defined over the character list so that it evaluates inside the kernel.) -/
def strLower (s : String) : String := String.mk (s.data.map Char.toLower)

/- Hex digit value, as accepted by strtol base 16. -/
def hexVal (c : Char) : Option Nat :=
  if '0' ≤ c ∧ c ≤ '9' then some (c.toNat - 48)
  else if 'a' ≤ c ∧ c ≤ 'f' then some (c.toNat - 87)
  else if 'A' ≤ c ∧ c ≤ 'F' then some (c.toNat - 55)
  else none

/- Longest hex-digit run at the front of the list, as strtol consumes it;
no digits at all yields 0 (strtol returns 0 when nothing converts). -/
def hexRun : List Char → Nat → Nat
  | [], acc => acc
  | c :: rest, acc =>
    match hexVal c with
    | some d => hexRun rest (acc * 16 + d)
    | none => acc

/- strtol(s, NULL, 16) on the six characters after the '#': an optional
0x/0X marker (followed by a hex digit) is skipped, then the longest hex run
is converted. -/
def strtolHex16 (s : List Char) : Nat :=
  match s with
  | c0 :: c1 :: rest =>
    if c0 = '0' ∧ (c1 = 'x' ∨ c1 = 'X') ∧ (hexVal ((rest.getD 0 ' '))).isSome then
      hexRun rest 0
    else hexRun s 0
  | _ => hexRun s 0

def hexChar (n : Nat) : Char :=
  if n < 10 then Char.ofNat (48 + n) else Char.ofNat (55 + n)

/- snprintf "%06X" of a value already masked to 24 bits. -/
def toHex6 (n : Nat) : String :=
  String.mk [hexChar (n / 1048576 % 16), hexChar (n / 65536 % 16),
             hexChar (n / 4096 % 16), hexChar (n / 256 % 16),
             hexChar (n / 16 % 16), hexChar (n % 16)]

def effectModeName : Effect → String
  | .EFFECT_BREATH => "breath"
  | .EFFECT_FAVORITE => "favorite"
  | .EFFECT_NIGHT => "night"
  | .EFFECT_WEATHER => "weather"
  | .EFFECT_STATIC => "static"
  | .EFFECT_PRIVATE_PULSE => "pulse"

/- The structured content of the JSON document built by
getCurrentStateJson: mode, brightness, optional color (Static only, from
pixel 0 masked to 24 bits), optional weather (Weather only). -/
structure Snapshot where
  mode : String
  brightness : Int
  color : Option String
  weather : Option String
  deriving DecidableEq, Repr

def snapshotOf (st : SysState) : Snapshot :=
  { mode := effectModeName st.currentEffect
    brightness :=
      if st.currentEffect = .EFFECT_BREATH then st.brightness
      else if st.currentEffect = .EFFECT_STATIC then (st.staticColorBrightness : Int)
      else (st.stripBrightness : Int)
    color :=
      if st.currentEffect = .EFFECT_STATIC then
        some ("#" ++ toHex6 (getPixel st.pixels 0 % 16777216))
      else none
    weather :=
      if st.currentEffect = .EFFECT_WEATHER then
        some st.currentWeatherCondition
      else none }

/- serializeJson output for the document above, fields in insertion order. -/
def serializeSnapshot (s : Snapshot) : String :=
  let base := "\x7b\"mode\":\"" ++ s.mode ++ "\",\"brightness\":" ++ toString s.brightness
  let withColor :=
    match s.color with
    | some c => base ++ ",\"color\":\"" ++ c ++ "\""
    | none => base
  let withWeather :=
    match s.weather with
    | some w => withColor ++ ",\"weather\":\"" ++ w ++ "\""
    | none => withColor
  withWeather ++ "\x7d"

def getCurrentStateJson (st : SysState) : String :=
  serializeSnapshot (snapshotOf st)

/- A decoded JSON value as the command handler probes it: as<const char*>
succeeds only on strings, is<int> only on integers. -/
inductive JVal
  | jstr (s : String)
  | jint (n : Int)
  deriving DecidableEq, Repr

def asStr : Option JVal → Option String
  | some (.jstr s) => some s
  | _ => none

def asIntQ : Option JVal → Option Int
  | some (.jint n) => some n
  | _ => none

/- The fields of an incoming command document. -/
structure CmdDoc where
  action : Option String
  value : Option JVal
  secret : Option String
  deriving DecidableEq, Repr

/- Output of the command handler: a reply to the requesting client
(client->text) or a broadcast to all clients (ws.textAll). -/
inductive WsOut
  | reply (s : String)
  | broadcast (s : String)
  deriving DecidableEq, Repr

def constrain (x lo hi : Int) : Int :=
  if x < lo then lo else if x > hi then hi else x

/- The setcolor shape check: strlen(colorVal) == 7 && colorVal[0] == '#'. -/
def setcolorGuard (colorVal : String) : Bool :=
  colorVal.length == 7 && colorVal.data.getD 0 ' ' == '#'

/- setmode name resolution: unknown names leave newEffect = currentEffect. -/
def resolveMode (modeStr : String) (cur : Effect) : Effect :=
  if modeStr = "breath" then .EFFECT_BREATH
  else if modeStr = "favorite" then .EFFECT_FAVORITE
  else if modeStr = "night" then .EFFECT_NIGHT
  else if modeStr = "weather" then .EFFECT_WEATHER
  else cur

/- onWsEvent, WS_EVT_DATA path (a `none` message is a deserializeJson
failure, which returns immediately).  `ppCode` is PRIVATE_PULSE_CODE from
secrets.h, kept as a parameter since that file is outside the core. -/
def processCommand (ppCode : String) (msg : Option CmdDoc) (st : SysState) :
    SysState × List WsOut :=
  match msg with
  | none => (st, [])
  | some doc =>
    match doc.action with
    | none => (st, [])
    | some action =>
      let actionStr := strLower action
      if actionStr = "setcolor" then
        match asStr doc.value with
        | some colorVal =>
          if setcolorGuard colorVal then
            let number := strtolHex16 colorVal.data.tail
            let r : Int := ((number >>> 16) &&& 0xFF : Nat)
            let g : Int := ((number >>> 8) &&& 0xFF : Nat)
            let b : Int := ((number &&& 0xFF : Nat))
            let st' := { st with currentEffect := .EFFECT_STATIC,
                                 pixels := fillAll st.pixels (stripColor r g b) }
            (st', [.broadcast (getCurrentStateJson st')])
          else if colorVal = "off" then
            let st' := { st with currentEffect := .EFFECT_STATIC,
                                 pixels := clearAll st.pixels }
            (st', [.broadcast (getCurrentStateJson st')])
          else (st, [])
        | none => (st, [])
      else if actionStr = "setbrightness" then
        match asIntQ doc.value with
        | some v =>
          let bv := constrain v 0 255
          let st' :=
            if st.currentEffect = .EFFECT_STATIC then
              { st with staticColorBrightness := bv.toNat,
                        pixels := fillAll st.pixels (getPixel st.pixels 0),
                        stripBrightness := 255 }
            else { st with staticColorBrightness := bv.toNat }
          (st', [.broadcast (getCurrentStateJson st')])
        | none => (st, [])
      else if actionStr = "setmode" then
        match asStr doc.value with
        | some modeVal =>
          let newEffect := resolveMode (strLower modeVal) st.currentEffect
          if newEffect ≠ st.currentEffect then
            let st' := { st with currentEffect := newEffect }
            let st' :=
              if newEffect = .EFFECT_BREATH then
                { st' with brightness := 0, brightnessStep := 5 }
              else st'
            let st' := { st' with pixels := clearAll st'.pixels }
            (st', [.broadcast (getCurrentStateJson st')])
          else (st, [])
        | none => (st, [])
      else if actionStr = "getstate" then
        (st, [.reply (getCurrentStateJson st)])
      else if actionStr = "privatepulse" then
        match doc.secret with
        | some secretVal =>
          if secretVal = ppCode then
            let st' := { st with currentEffect := .EFFECT_PRIVATE_PULSE,
                                 pulseStep := 0 }
            (st', [.broadcast (getCurrentStateJson st')])
          else (st, [])
        | none => (st, [])
      else (st, [])

/- Per-tick environment: millis(), the random source (indexed by the draw
number within the tick), and the isDayTime() query. -/
structure Env where
  now : Nat
  rand : Nat → Nat → Nat
  isDay : Bool

/- random(n): a value in [0, n). -/
def rnd (e : Env) (i n : Nat) : Nat := e.rand i n % n

/- Global `int effectDelay = 30`. -/
def effectDelay : Nat := 30

/- fadeStripToBlackBy: multiplicative per-channel attenuation. -/
def fadeColor (fadeAmount : Nat) (c : Nat) : Nat :=
  let r := c / 65536 % 256
  let g := c / 256 % 256
  let b := c % 256
  stripColor ((r * (256 - fadeAmount)) / 256) ((g * (256 - fadeAmount)) / 256)
    ((b * (256 - fadeAmount)) / 256)

def fadeStripToBlackBy (fadeAmount : Nat) (px : List Nat) : List Nat :=
  px.map (fadeColor fadeAmount)

/- setTempIndicator: last four pixels show a temperature color band. -/
def tempColor (temperature : Int) : Nat :=
  if temperature ≤ 40 then stripColor 0 0 150
  else if temperature ≤ 70 then stripColor 0 150 150
  else if temperature ≤ 85 then stripColor 150 150 0
  else stripColor 200 50 0

def setTempIndicator (temperature : Int) (px : List Nat) : List Nat :=
  pixMapIdx
    (fun i c => if NUM_LEDS - 4 ≤ i ∧ i < NUM_LEDS then tempColor temperature else c)
    px

/- One brighten step of the clouds branch (ternary saturating adds). -/
def cloudsBrighten (isDay : Bool) (px : List Nat) (pos : Nat) : List Nat :=
  let c := getPixel px pos
  let r := c / 65536 % 256
  let g := c / 256 % 256
  let b := c % 256
  let addR : Nat := if isDay then 20 else 5
  let addG : Nat := if isDay then 20 else 5
  let addB : Nat := if isDay then 20 else 10
  setPixel px pos
    (stripColor (min 255 (r + addR)) (min 255 (g + addG)) (min 255 (b + addB)))

/- The branch chain of runWeatherMode: given the lower-cased condition it
produces the new animation pixels and the brightness the branch sets.  The
thunderstorm flash shows white mid-frame and then refills the background;
only the final buffer state is observable here. -/
def weatherFrame (e : Env) (cond : String) (px0 : List Nat) : List Nat × Nat :=
  let isDay := e.isDay
  if cond = "clear" then
    let baseColor := if isDay then stripColor 0 50 200 else stripColor 0 0 80
    let sparkleColor := if isDay then stripColor 255 200 0 else stripColor 100 100 0
    let px := pixMapIdx (fun i c => if i < ANIMATION_LEDS then baseColor else c) px0
    let px :=
      if rnd e 0 5 = 0 then
        let pos := rnd e 1 ANIMATION_LEDS
        let px := setPixel px pos sparkleColor
        if pos > 0 then setPixel px (pos - 1) (stripColor 30 30 30) else px
      else px
    let px := pixMapIdx
      (fun i c =>
        if i < ANIMATION_LEDS then
          stripColor ((c / 65536 % 256 * 245) / 256) ((c / 256 % 256 * 245) / 256)
            ((c % 256 * 240) / 256)
        else c) px
    (px, if isDay then 255 else 150)
  else if cond = "clouds" then
    let px := fadeStripToBlackBy 5 px0
    let px := cloudsBrighten isDay px (rnd e 0 ANIMATION_LEDS)
    let px := cloudsBrighten isDay px (rnd e 1 ANIMATION_LEDS)
    let px := cloudsBrighten isDay px (rnd e 2 ANIMATION_LEDS)
    let baseColor := if isDay then stripColor 50 50 50 else stripColor 10 10 20
    let px := pixMapIdx
      (fun i c => if i < ANIMATION_LEDS ∧ c = 0 then baseColor else c) px
    (px, if isDay then 200 else 120)
  else if cond = "rain" ∨ cond = "drizzle" then
    let fadeAmount := if isDay then 40 else 20
    let rainColor := if isDay then stripColor 0 50 200 else stripColor 0 0 100
    let px := fadeStripToBlackBy fadeAmount px0
    (setPixel px (rnd e 0 ANIMATION_LEDS) rainColor, if isDay then 200 else 120)
  else if cond = "thunderstorm" then
    let bgColor := if isDay then stripColor 20 20 40 else stripColor 0 0 10
    if rnd e 0 20 = 0 then
      (fillRange (fillRange px0 (stripColor 255 255 255) 0 ANIMATION_LEDS) bgColor 0
        ANIMATION_LEDS, 255)
    else (fillRange px0 bgColor 0 ANIMATION_LEDS, if isDay then 150 else 80)
  else if cond = "snow" then
    let fadeAmount := if isDay then 30 else 15
    let snowColor := if isDay then stripColor 200 200 200 else stripColor 80 80 100
    let px := fadeStripToBlackBy fadeAmount px0
    (setPixel px (rnd e 0 ANIMATION_LEDS) snowColor, if isDay then 200 else 150)
  else
    let defaultColor := if isDay then stripColor 50 50 50 else stripColor 10 10 10
    (fillRange px0 defaultColor 0 ANIMATION_LEDS, if isDay then 100 else 30)

/- runWeatherMode: 100 ms gate, lower-cases currentWeatherCondition in
place, runs the condition branch, then overlays the temperature segment. -/
def runWeatherMode (e : Env) (st : SysState) : SysState :=
  if e.now - st.lastWeatherAnimUpdate < 100 then st
  else
    let cond := strLower st.currentWeatherCondition
    let fr := weatherFrame e cond st.pixels
    { st with lastWeatherAnimUpdate := e.now,
              currentWeatherCondition := cond,
              pixels := setTempIndicator st.currentTemperature fr.1,
              stripBrightness := fr.2 }

/- favColor: the Breath kernel (dispatched for EFFECT_BREATH).  Two
independent gates: brightness triangle wave every 10 ms between 50 and 255,
hue ramp advance every 30 ms within the band 30000..60000. -/
def favColor (e : Env) (st : SysState) : SysState :=
  let st1 := { st with stripBrightness := 255 }
  let st2 :=
    if e.now - st1.lastColorUpdate ≥ 10 then
      let b := st1.brightness + st1.brightnessStep
      if b ≥ 255 then
        { st1 with lastColorUpdate := e.now, brightness := 255,
                   brightnessStep := -(st1.brightnessStep.natAbs : Int) }
      else if b ≤ 50 then
        { st1 with lastColorUpdate := e.now, brightness := 50,
                   brightnessStep := (st1.brightnessStep.natAbs : Int) }
      else { st1 with lastColorUpdate := e.now, brightness := b }
    else st1
  if e.now - st2.lastFavColorUpdate ≥ 30 then
    let px := pixMapIdx
      (fun i _ =>
        let totalOffset := st2.animPos * 700 + i * 1000
        let restrictedOffset := totalOffset % 65536 * 30000 / 65536
        colorHSV (30000 + restrictedOffset) 155 (u8 st2.brightness))
      st2.pixels
    { st2 with lastFavColorUpdate := e.now, pixels := px,
               animPos := st2.animPos + 1, stripBrightness := 255 }
  else st2

/- privatePulse: ping-pong single pixel, gated at 100 ms. -/
def privatePulse (e : Env) (st : SysState) : SysState :=
  if e.now - st.lastPulseUpdate > 100 then
    let phase := st.pulseStep % (NUM_LEDS * 2)
    let px :=
      if phase < NUM_LEDS then setPixel st.pixels phase (stripColor 255 105 180)
      else setPixel st.pixels (NUM_LEDS * 2 - 1 - phase) (stripColor 255 0 0)
    { st with lastPulseUpdate := e.now, pixels := px, pulseStep := st.pulseStep + 1 }
  else st

/- runArrive: climbing green fade; brightness keeps the stepped value even
past a bound, only the step sign flips. -/
def runArrive (e : Env) (st : SysState) : SysState :=
  if e.now - st.lastArriveUpdate ≥ effectDelay then
    let b := st.brightness + st.brightnessStep
    let step := if b ≤ 0 ∨ b ≥ 255 then -st.brightnessStep else st.brightnessStep
    { st with lastArriveUpdate := e.now, brightness := b, brightnessStep := step,
              pixels := fillAll st.pixels (stripColor 0 b 0) }
  else st

/- runSettled: static warm white, no gate. -/
def runSettled (st : SysState) : SysState :=
  { st with pixels := fillAll st.pixels (stripColor 127 100 64) }

/- runLeave: climbing blue fade. -/
def runLeave (e : Env) (st : SysState) : SysState :=
  if e.now - st.lastLeaveUpdate ≥ effectDelay then
    let b := st.brightness + st.brightnessStep
    let step := if b ≤ 0 ∨ b ≥ 255 then -st.brightnessStep else st.brightnessStep
    { st with lastLeaveUpdate := e.now, brightness := b, brightnessStep := step,
              pixels := fillAll st.pixels (stripColor 0 0 b) }
  else st

/- runDriving: yellow blink toggled at the 600 ms gate. -/
def runDriving (e : Env) (st : SysState) : SysState :=
  if e.now - st.lastDrivingUpdate ≥ 600 then
    let isOn := !st.drivingOn
    { st with lastDrivingUpdate := e.now, drivingOn := isOn,
              pixels := fillAll st.pixels
                (if isOn then stripColor 255 255 0 else stripColor 0 0 0) }
  else st

/- runGenerativeSparkle: the Favorite kernel (local effectDelay = 40). -/
def runGenerativeSparkle (e : Env) (st : SysState) : SysState :=
  if e.now - st.lastFavColorUpdate < 40 then st
  else
    let px := fadeStripToBlackBy 20 st.pixels
    let px :=
      if rnd e 0 10 = 0 then
        setPixel px (rnd e 1 NUM_LEDS) (colorHSV (rnd e 2 65535) 255 255)
      else px
    { st with lastFavColorUpdate := e.now, pixels := px }

/- runNightMode: warm fill at brightness 30, gated at effectDelay. -/
def runNightMode (e : Env) (st : SysState) : SysState :=
  if e.now - st.lastNightModeUpdate ≥ effectDelay then
    { st with lastNightModeUpdate := e.now,
              pixels := fillRange st.pixels (stripColor 100 70 20) 0 NUM_LEDS,
              stripBrightness := 30 }
  else st

/- Special-date animation kernels (all gated on lastAnimMillis). -/
def animChristmas (now : Nat) (st : SysState) : SysState :=
  if now - st.lastAnimMillis < 120 then st
  else
    let px := fillAll st.pixels (stripColor 160 0 0)
    { st with lastAnimMillis := now,
              pixels := setPixel px (st.animPos % NUM_LEDS) (stripColor 0 160 0),
              animPos := st.animPos + 1 }

def animAnni (now : Nat) (st : SysState) : SysState :=
  if now - st.lastAnimMillis < 40 then st
  else
    let ab := st.animBrightness + st.animStep
    let step := if ab ≤ 0 ∨ ab ≥ 255 then -st.animStep else st.animStep
    let b := u8 ab
    { st with lastAnimMillis := now, animBrightness := ab, animStep := step,
              pixels := fillAll st.pixels
                (stripColor ((255 * b) / 255) ((80 * b) / 255) ((150 * b) / 255)) }

def animValentines (now : Nat) (st : SysState) : SysState :=
  if now - st.lastAnimMillis < 100 then st
  else
    let p := st.animPos % NUM_LEDS
    let px := setPixel (clearAll st.pixels) p (stripColor 255 105 180)
    { st with lastAnimMillis := now,
              pixels := pixMapIdx (fun i c => if i ≠ p then stripColor 255 0 0 else c) px,
              animPos := st.animPos + 1 }

def animIndependence (now : Nat) (st : SysState) : SysState :=
  if now - st.lastAnimMillis < 200 then st
  else
    let cycle := st.animPos % 3
    let c :=
      if cycle = 0 then stripColor 255 0 0
      else if cycle = 1 then stripColor 255 255 255
      else stripColor 0 0 255
    { st with lastAnimMillis := now, pixels := fillRange st.pixels c 0 NUM_LEDS,
              animPos := st.animPos + 1 }

def animHerBirthday (now : Nat) (st : SysState) : SysState :=
  if now - st.lastAnimMillis < 100 then st
  else
    let p := st.animPos % NUM_LEDS
    let px := setPixel (clearAll st.pixels) p (stripColor 255 105 180)
    { st with lastAnimMillis := now,
              pixels := pixMapIdx (fun i c => if i ≠ p then stripColor 40 0 80 else c) px,
              animPos := st.animPos + 1 }

def animHisBirthday (now : Nat) (st : SysState) : SysState :=
  if now - st.lastAnimMillis < 100 then st
  else
    let p := st.animPos % NUM_LEDS
    let px := setPixel (clearAll st.pixels) p (stripColor 150 150 150)
    { st with lastAnimMillis := now,
              pixels := pixMapIdx (fun i c => if i ≠ p then stripColor 0 0 255 else c) px,
              animPos := st.animPos + 1 }

def dummyEvent : SpecialEvent := ⟨0, 0, ""⟩

/- runActiveSpecialAnimation: dispatch by the active entry's name; an
unrecognized name falls back to the Christmas kernel. -/
def activeEventName (st : SysState) : String :=
  (dates.getD st.activeEventIndex.toNat dummyEvent).name

def runActiveSpecialAnimation (e : Env) (st : SysState) : SysState :=
  if ¬ st.dateActive ∨ st.activeEventIndex < 0 then st
  else if activeEventName st = "Christmas" then animChristmas e.now st
  else if activeEventName st = "Valentines" then animValentines e.now st
  else if activeEventName st = "NewYear" then animIndependence e.now st
  else if activeEventName st = "HerBirthday" then animHerBirthday e.now st
  else if activeEventName st = "HisBirthday" then animHisBirthday e.now st
  else if activeEventName st = "Anniversary" then animAnni e.now st
  else animChristmas e.now st

/- Which of the four drivers the arbiter dispatched this tick. -/
inductive Driver
  | specialDate
  | geo
  | pulse
  | baseline
  deriving DecidableEq, Repr

/- The switch on currentGeoState inside the geo-override branch. -/
def geoKernelStep (e : Env) (st : SysState) : SysState :=
  match st.currentGeoState with
  | .GEO_ARRIVED => runArrive e st
  | .GEO_SETTLED => runSettled st
  | .GEO_LEAVE => runLeave e st
  | .GEO_DRIVING => runDriving e st
  | .GEO_NONE => st

/- The main-effects switch on currentEffect (no case for Static or for
Private Pulse, which was already peeled off). -/
def baselineKernelStep (e : Env) (st : SysState) : SysState :=
  match st.currentEffect with
  | .EFFECT_BREATH => favColor e st
  | .EFFECT_FAVORITE => runGenerativeSparkle e st
  | .EFFECT_NIGHT => runNightMode e st
  | .EFFECT_WEATHER => runWeatherMode e st
  | _ => st

/- The priority arbiter: lines 797-824 of loop().  Returns the new state,
the snapshot broadcasts this segment emitted, and the dispatched driver. -/
def renderTick (e : Env) (st : SysState) : SysState × List String × Driver :=
  if st.dateActive then (runActiveSpecialAnimation e st, [], .specialDate)
  else if st.currentGeoState ≠ .GEO_NONE then
    let st1 := geoKernelStep e st
    if e.now - st1.currentStateStart ≥ st1.stateDuration then
      let st2 := { st1 with currentGeoState := .GEO_NONE,
                            pixels := clearAll st1.pixels }
      (st2, [getCurrentStateJson st2], .geo)
    else (st1, [], .geo)
  else if st.currentEffect = .EFFECT_PRIVATE_PULSE then
    (privatePulse e st, [], .pulse)
  else (baselineKernelStep e st, [], .baseline)

/- The priority policy as the spec states it in section 4.3; renderTick is
proved to refine it. -/
def specPriorityDriver (st : SysState) : Driver :=
  if st.dateActive then .specialDate
  else if st.currentGeoState ≠ .GEO_NONE then .geo
  else if st.currentEffect = .EFFECT_PRIVATE_PULSE then .pulse
  else .baseline

/- One geofence feed message (lines 724-752 of loop()): case folding, the
recognised keywords, and the unconditional snapshot broadcast at the end.
Returned strings are the broadcast payloads in emission order. -/
def handleGeoMessage (now : Nat) (raw : String) (st : SysState) :
    SysState × List String :=
  let message := strLower raw
  let step : SysState × List String :=
    if message = "arrive" then
      ({ st with currentGeoState := .GEO_ARRIVED, currentStateStart := now,
                 stateDuration := 15000, brightness := 0, brightnessStep := 5 }, [])
    else if message = "settled" then
      ({ st with currentGeoState := .GEO_SETTLED, currentStateStart := now,
                 stateDuration := 10000 }, [])
    else if message = "leave" then
      ({ st with currentGeoState := .GEO_LEAVE, currentStateStart := now,
                 stateDuration := 8000, brightness := 0, brightnessStep := 5 }, [])
    else if message = "driving" then
      ({ st with currentGeoState := .GEO_DRIVING, currentStateStart := now,
                 stateDuration := 10000 }, [])
    else if message = "pulse" ∨ message = "missyou" then
      let st' := { st with currentEffect := .EFFECT_PRIVATE_PULSE, pulseStep := 0 }
      (st', [getCurrentStateJson st'])
    else (st, [])
  (step.1, step.2 ++ [getCurrentStateJson step.1])

/- Outcome of the weather HTTP fetch, as updateWeather distinguishes it. -/
inductive WeatherFetch
  | offline
  | httpFail
  | badJson
  | ok (cond : Option String) (temp : Option Int)

/- updateWeather: 15 minute gate (or first run), then store the fetched
condition and temperature, or a sentinel on failure. -/
def updateWeather (now : Nat) (f : WeatherFetch) (st : SysState) : SysState :=
  if now - st.lastWeatherCheck ≥ 900000 ∨ st.lastWeatherCheck = 0 then
    let st1 := { st with lastWeatherCheck := now }
    match f with
    | .offline => { st1 with currentWeatherCondition := "Offline" }
    | .httpFail => { st1 with currentWeatherCondition := "Error" }
    | .badJson => { st1 with currentWeatherCondition := "Error" }
    | .ok cond temp =>
      let st2 :=
        match cond with
        | some c => { st1 with currentWeatherCondition := c }
        | none => st1
      match temp with
      | some t => { st2 with currentTemperature := t }
      | none => st2
  else st

def effIdx : Effect → Nat
  | .EFFECT_BREATH => 0
  | .EFFECT_FAVORITE => 1
  | .EFFECT_NIGHT => 2
  | .EFFECT_WEATHER => 3
  | .EFFECT_STATIC => 4
  | .EFFECT_PRIVATE_PULSE => 5

def effOfNat : Nat → Effect
  | 0 => .EFFECT_BREATH
  | 1 => .EFFECT_FAVORITE
  | 2 => .EFFECT_NIGHT
  | _ => .EFFECT_WEATHER

/- static_cast of (currentEffect + 1) % 4 in the button rotation. -/
def cycleNext (ef : Effect) : Effect := effOfNat ((effIdx ef + 1) % 4)

/- One falling edge of the button (lines 761-787 of loop()): cancel an
active date (marking it played with the entry's calendar day), or leave
Pulse for Breath at cursor 60, or rotate the four automatic modes. -/
def handleButtonPress (now : Nat) (f : WeatherFetch) (st : SysState) :
    SysState × List String :=
  if st.dateActive then
    let st1 :=
      if 0 ≤ st.activeEventIndex ∧ st.activeEventIndex < (numDates : Int) then
        let markedDay : Int := ((dates.getD st.activeEventIndex.toNat dummyEvent).day : Int)
        { st with lastPlayedDay := st.lastPlayedDay.set st.activeEventIndex.toNat markedDay }
      else st
    let st2 := { st1 with dateActive := false, activeEventIndex := -1,
                          pixels := clearAll st1.pixels, stripBrightness := 255 }
    (st2, [getCurrentStateJson st2])
  else if st.currentEffect = .EFFECT_PRIVATE_PULSE then
    let st1 := { st with currentEffect := .EFFECT_BREATH, brightness := 60,
                         brightnessStep := 5, stripBrightness := 255,
                         pixels := clearAll st.pixels }
    (st1, [getCurrentStateJson st1])
  else
    let newEff := cycleNext st.currentEffect
    let st1 := { st with currentEffect := newEff }
    let st2 :=
      if newEff = .EFFECT_BREATH then
        { st1 with brightness := 60, brightnessStep := 5, stripBrightness := 255 }
      else if newEff = .EFFECT_WEATHER then updateWeather now f st1
      else st1
    let st3 := { st2 with pixels := clearAll st2.pixels }
    (st3, [getCurrentStateJson st3])

/- startSpecialEvent: index guard, then arm the date animation state and
broadcast. -/
def startSpecialEvent (now : Nat) (index : Int) (st : SysState) :
    SysState × List String :=
  if index < 0 ∨ (numDates : Int) ≤ index then (st, [])
  else
    let st' := { st with dateActive := true, activeEventIndex := index,
                         lastAnimMillis := now, animPos := 0, animBrightness := 0,
                         animStep := 8 }
    (st', [getCurrentStateJson st'])

/- The first calendar entry matching the current month and day. -/
def findMatch (m d : Nat) : Option Nat :=
  dates.findIdx? (fun ev => ev.month = m ∧ ev.day = d)

/- checkStartDate with the wall-clock date injected (none models a
getLocalTime failure).  The Bool reports whether startSpecialEvent was
invoked this check. -/
def checkStartDate (now : Nat) (timeinfo : Option (Nat × Nat)) (st : SysState) :
    SysState × List String × Bool :=
  match timeinfo with
  | none => (st, [], false)
  | some (currentMonth, currentDay) =>
    match findMatch currentMonth currentDay with
    | some matchingIndex =>
      if st.dateActive ∧ st.activeEventIndex = (matchingIndex : Int) then
        (st, [], false)
      else if st.lastPlayedDay.getD matchingIndex (-1) ≠ (currentDay : Int) then
        let started := startSpecialEvent now (matchingIndex : Int) st
        ({ started.1 with
             lastPlayedDay := started.1.lastPlayedDay.set matchingIndex (currentDay : Int) },
         started.2, true)
      else (st, [], false)
    | none =>
      if st.dateActive then
        let st' := { st with dateActive := false, activeEventIndex := -1,
                             pixels := clearAll st.pixels }
        (st', [getCurrentStateJson st'], false)
      else (st, [], false)

/- The global state right after setup(): the initial values of the globals,
lastPlayedDay all -1, a dark strip.  The strip library reports full
brightness before any setBrightness call. -/
def initState : SysState :=
  { currentEffect := .EFFECT_BREATH
    currentGeoState := .GEO_NONE
    currentWeatherCondition := "Unknown"
    currentTemperature := 0
    lastWeatherCheck := 0
    lastDateCheck := 0
    lastAnimMillis := 0
    currentStateStart := 0
    lastColorUpdate := 0
    lastFavColorUpdate := 0
    lastNightModeUpdate := 0
    lastPulseUpdate := 0
    lastArriveUpdate := 0
    lastLeaveUpdate := 0
    lastDrivingUpdate := 0
    lastWeatherAnimUpdate := 0
    animPos := 0
    animBrightness := 0
    animStep := 8
    pulseStep := 0
    brightnessStep := 5
    brightness := 50
    stateDuration := 0
    staticColorBrightness := 255
    drivingOn := false
    lastPlayedDay := List.replicate numDates (-1)
    dateActive := false
    activeEventIndex := -1
    pixels := List.replicate NUM_LEDS 0
    stripBrightness := 255 }

/- The command-rejection set of onWsEvent: exactly the inputs on which the
handler takes no branch with an effect (parse failure, missing or unknown
action, or a payload failing that action's guards; setmode to a name
resolving to the current mode included, since the handler then does
nothing). -/
def cmdRejected (ppCode : String) (msg : Option CmdDoc) (st : SysState) : Bool :=
  match msg with
  | none => true
  | some doc =>
    match doc.action with
    | none => true
    | some action =>
      let actionStr := strLower action
      if actionStr = "setcolor" then
        match asStr doc.value with
        | some colorVal => !(setcolorGuard colorVal) && !(colorVal == "off")
        | none => true
      else if actionStr = "setbrightness" then (asIntQ doc.value).isNone
      else if actionStr = "setmode" then
        match asStr doc.value with
        | some modeVal => resolveMode (strLower modeVal) st.currentEffect = st.currentEffect
        | none => true
      else if actionStr = "getstate" then false
      else if actionStr = "privatepulse" then
        match doc.secret with
        | some secretVal => secretVal ≠ ppCode
        | none => true
      else true

/- Fixtures used by the witness theorems. -/
def envAt (now : Nat) : Env := ⟨now, fun _ _ => 0, true⟩

def stWithDate : SysState := { initState with dateActive := true, activeEventIndex := 0 }

def stWithPulse : SysState := { initState with currentEffect := .EFFECT_PRIVATE_PULSE }

def stWithGeo : SysState :=
  { initState with currentGeoState := .GEO_DRIVING, currentStateStart := 0,
                   stateDuration := 10000 }

def setcolorDoc : CmdDoc := ⟨some "setcolor", some (.jstr "#1A2B3C"), none⟩

def getstateDoc : CmdDoc := ⟨some "getstate", none, none⟩

def danceDoc : CmdDoc := ⟨some "dance", none, none⟩

def zzDoc : CmdDoc := ⟨some "setcolor", some (.jstr "#zzzzzz"), none⟩

-- ==========================================
--                THEOREMS
-- ==========================================

/- Frame lemmas: each kernel only writes its own cursor fields. -/

lemma animChristmas_frame (now : Nat) (st : SysState) :
    ∃ t px ap ab sp, animChristmas now st =
      { st with lastAnimMillis := t, pixels := px, animPos := ap,
                animBrightness := ab, animStep := sp } := by
  unfold animChristmas
  split
  · exact ⟨st.lastAnimMillis, st.pixels, st.animPos, st.animBrightness, st.animStep, rfl⟩
  · exact ⟨_, _, _, st.animBrightness, st.animStep, rfl⟩

lemma animValentines_frame (now : Nat) (st : SysState) :
    ∃ t px ap ab sp, animValentines now st =
      { st with lastAnimMillis := t, pixels := px, animPos := ap,
                animBrightness := ab, animStep := sp } := by
  unfold animValentines
  split
  · exact ⟨st.lastAnimMillis, st.pixels, st.animPos, st.animBrightness, st.animStep, rfl⟩
  · exact ⟨_, _, _, st.animBrightness, st.animStep, rfl⟩

lemma animIndependence_frame (now : Nat) (st : SysState) :
    ∃ t px ap ab sp, animIndependence now st =
      { st with lastAnimMillis := t, pixels := px, animPos := ap,
                animBrightness := ab, animStep := sp } := by
  unfold animIndependence
  split
  · exact ⟨st.lastAnimMillis, st.pixels, st.animPos, st.animBrightness, st.animStep, rfl⟩
  · exact ⟨_, _, _, st.animBrightness, st.animStep, rfl⟩

lemma animHerBirthday_frame (now : Nat) (st : SysState) :
    ∃ t px ap ab sp, animHerBirthday now st =
      { st with lastAnimMillis := t, pixels := px, animPos := ap,
                animBrightness := ab, animStep := sp } := by
  unfold animHerBirthday
  split
  · exact ⟨st.lastAnimMillis, st.pixels, st.animPos, st.animBrightness, st.animStep, rfl⟩
  · exact ⟨_, _, _, st.animBrightness, st.animStep, rfl⟩

lemma animHisBirthday_frame (now : Nat) (st : SysState) :
    ∃ t px ap ab sp, animHisBirthday now st =
      { st with lastAnimMillis := t, pixels := px, animPos := ap,
                animBrightness := ab, animStep := sp } := by
  unfold animHisBirthday
  split
  · exact ⟨st.lastAnimMillis, st.pixels, st.animPos, st.animBrightness, st.animStep, rfl⟩
  · exact ⟨_, _, _, st.animBrightness, st.animStep, rfl⟩

lemma animAnni_frame (now : Nat) (st : SysState) :
    ∃ t px ap ab sp, animAnni now st =
      { st with lastAnimMillis := t, pixels := px, animPos := ap,
                animBrightness := ab, animStep := sp } := by
  unfold animAnni
  split
  · exact ⟨st.lastAnimMillis, st.pixels, st.animPos, st.animBrightness, st.animStep, rfl⟩
  · exact ⟨_, _, st.animPos, _, _, rfl⟩

lemma specialAnim_frame (e : Env) (st : SysState) :
    ∃ t px ap ab sp, runActiveSpecialAnimation e st =
      { st with lastAnimMillis := t, pixels := px, animPos := ap,
                animBrightness := ab, animStep := sp } := by
  unfold runActiveSpecialAnimation
  repeat' split
  all_goals first
    | exact ⟨st.lastAnimMillis, st.pixels, st.animPos, st.animBrightness, st.animStep, rfl⟩
    | exact animChristmas_frame e.now st
    | exact animValentines_frame e.now st
    | exact animIndependence_frame e.now st
    | exact animHerBirthday_frame e.now st
    | exact animHisBirthday_frame e.now st
    | exact animAnni_frame e.now st

lemma runArrive_frame (e : Env) (st : SysState) :
    ∃ t b s px, runArrive e st =
      { st with lastArriveUpdate := t, brightness := b, brightnessStep := s,
                pixels := px } := by
  unfold runArrive
  split
  · exact ⟨_, _, _, _, rfl⟩
  · exact ⟨st.lastArriveUpdate, st.brightness, st.brightnessStep, st.pixels, rfl⟩

lemma runLeave_frame (e : Env) (st : SysState) :
    ∃ t b s px, runLeave e st =
      { st with lastLeaveUpdate := t, brightness := b, brightnessStep := s,
                pixels := px } := by
  unfold runLeave
  split
  · exact ⟨_, _, _, _, rfl⟩
  · exact ⟨st.lastLeaveUpdate, st.brightness, st.brightnessStep, st.pixels, rfl⟩

lemma runDriving_frame (e : Env) (st : SysState) :
    ∃ t o px, runDriving e st =
      { st with lastDrivingUpdate := t, drivingOn := o, pixels := px } := by
  unfold runDriving
  split
  · exact ⟨_, _, _, rfl⟩
  · exact ⟨st.lastDrivingUpdate, st.drivingOn, st.pixels, rfl⟩

lemma privatePulse_frame (e : Env) (st : SysState) :
    ∃ t px ps, privatePulse e st =
      { st with lastPulseUpdate := t, pixels := px, pulseStep := ps } := by
  unfold privatePulse
  split
  · exact ⟨_, _, _, rfl⟩
  · exact ⟨st.lastPulseUpdate, st.pixels, st.pulseStep, rfl⟩

lemma geoKernelStep_frame (e : Env) (st : SysState) :
    ∃ t1 t2 t3 b s o px, geoKernelStep e st =
      { st with lastArriveUpdate := t1, lastLeaveUpdate := t2,
                lastDrivingUpdate := t3, brightness := b, brightnessStep := s,
                drivingOn := o, pixels := px } := by
  unfold geoKernelStep
  cases hgs : st.currentGeoState
  case GEO_NONE =>
    refine ⟨st.lastArriveUpdate, st.lastLeaveUpdate, st.lastDrivingUpdate,
      st.brightness, st.brightnessStep, st.drivingOn, st.pixels, ?_⟩
    conv_rhs => rw [← hgs]
  case GEO_ARRIVED =>
    obtain ⟨t, b, s, px, h⟩ := runArrive_frame e st
    refine ⟨t, st.lastLeaveUpdate, st.lastDrivingUpdate, b, s, st.drivingOn, px, ?_⟩
    conv_rhs => rw [← hgs]
    all_goals rw [h]
  case GEO_SETTLED =>
    refine ⟨st.lastArriveUpdate, st.lastLeaveUpdate, st.lastDrivingUpdate,
      st.brightness, st.brightnessStep, st.drivingOn,
      fillAll st.pixels (stripColor 127 100 64), ?_⟩
    conv_rhs => rw [← hgs]
    all_goals rfl
  case GEO_LEAVE =>
    obtain ⟨t, b, s, px, h⟩ := runLeave_frame e st
    refine ⟨st.lastArriveUpdate, t, st.lastDrivingUpdate, b, s, st.drivingOn, px, ?_⟩
    conv_rhs => rw [← hgs]
    all_goals rw [h]
  case GEO_DRIVING =>
    obtain ⟨t, o, px, h⟩ := runDriving_frame e st
    refine ⟨st.lastArriveUpdate, st.lastLeaveUpdate, t, st.brightness,
      st.brightnessStep, o, px, ?_⟩
    conv_rhs => rw [← hgs]
    all_goals rw [h]

/-- C1: At every tick the priority arbiter dispatches exactly one driver's
kernel — renderTick returns a single dispatched-driver tag, proved equal to
the spec's strict priority order special-date, then geofence override, then
pulse, then baseline (specPriorityDriver).  The suppression conjuncts show
a lower-priority kernel is never invoked while a higher one is active: when
the special date renders, every other kernel's private gate timestamp and
the pulse cursor are untouched; when a geofence override renders, the pulse
and baseline kernels' cursors are untouched; when pulse renders, the
baseline kernels' cursors are untouched. -/
theorem arbiter_tick_single_driver (e : Env) (st : SysState) :
    (renderTick e st).2.2 = specPriorityDriver st ∧
    (st.dateActive = true →
      ((renderTick e st).1.pulseStep = st.pulseStep ∧
       (renderTick e st).1.lastPulseUpdate = st.lastPulseUpdate ∧
       (renderTick e st).1.lastColorUpdate = st.lastColorUpdate ∧
       (renderTick e st).1.lastFavColorUpdate = st.lastFavColorUpdate ∧
       (renderTick e st).1.lastNightModeUpdate = st.lastNightModeUpdate ∧
       (renderTick e st).1.lastWeatherAnimUpdate = st.lastWeatherAnimUpdate ∧
       (renderTick e st).1.lastArriveUpdate = st.lastArriveUpdate ∧
       (renderTick e st).1.lastLeaveUpdate = st.lastLeaveUpdate ∧
       (renderTick e st).1.lastDrivingUpdate = st.lastDrivingUpdate)) ∧
    (st.dateActive = false → st.currentGeoState ≠ .GEO_NONE →
      ((renderTick e st).1.pulseStep = st.pulseStep ∧
       (renderTick e st).1.lastPulseUpdate = st.lastPulseUpdate ∧
       (renderTick e st).1.lastColorUpdate = st.lastColorUpdate ∧
       (renderTick e st).1.lastFavColorUpdate = st.lastFavColorUpdate ∧
       (renderTick e st).1.lastNightModeUpdate = st.lastNightModeUpdate ∧
       (renderTick e st).1.lastWeatherAnimUpdate = st.lastWeatherAnimUpdate ∧
       (renderTick e st).1.lastAnimMillis = st.lastAnimMillis)) ∧
    (st.dateActive = false → st.currentGeoState = .GEO_NONE →
      st.currentEffect = .EFFECT_PRIVATE_PULSE →
      ((renderTick e st).1.lastColorUpdate = st.lastColorUpdate ∧
       (renderTick e st).1.lastFavColorUpdate = st.lastFavColorUpdate ∧
       (renderTick e st).1.lastNightModeUpdate = st.lastNightModeUpdate ∧
       (renderTick e st).1.lastWeatherAnimUpdate = st.lastWeatherAnimUpdate ∧
       (renderTick e st).1.lastAnimMillis = st.lastAnimMillis)) := by
  refine ⟨?_, fun hd => ?_, fun hd hg => ?_, fun hd hg hp => ?_⟩
  · unfold renderTick specPriorityDriver
    repeat' split
    all_goals simp_all
    all_goals (split <;> rfl)
  · obtain ⟨t, px, ap, ab, sp, hEq⟩ := specialAnim_frame e st
    simp [renderTick, hd, hEq]
  · obtain ⟨t1, t2, t3, b, s, o, px, hEq⟩ := geoKernelStep_frame e st
    simp only [renderTick, hEq, hd, hg]
    repeat' split
    all_goals simp_all
  · obtain ⟨t, px, ps, hEq⟩ := privatePulse_frame e st
    simp [renderTick, hd, hg, hp, hEq]

/-- C1 witness: with a special date active the dispatched driver is the
special-date kernel and the pulse cursor is untouched. -/
theorem arbiter_tick_single_driver_witness :
    (renderTick (envAt 0) stWithDate).2.2 = Driver.specialDate ∧
    (renderTick (envAt 0) stWithDate).1.pulseStep = stWithDate.pulseStep :=
  ⟨((arbiter_tick_single_driver (envAt 0) stWithDate).1).trans (by decide),
   ((arbiter_tick_single_driver (envAt 0) stWithDate).2.1 (by decide)).1⟩

/-- C2 counterexample: a Settled override does not stay active until the
next geofence event replaces it — the handler arms it with a 10 s duration
and the expiry poll clears it: after `settled` at time 0, the tick at
10000 ms (no intervening geofence event) drops the override back to
GEO_NONE. -/
theorem settled_expiry_counterexample :
    (handleGeoMessage 0 "settled" initState).1.currentGeoState = GeoState.GEO_SETTLED ∧
    (handleGeoMessage 0 "settled" initState).1.stateDuration = 10000 ∧
    (renderTick (envAt 10000)
        (handleGeoMessage 0 "settled" initState).1).1.currentGeoState =
      GeoState.GEO_NONE := by
  decide

/-- C2 amended: the duration budgets are Arrived 15 s, Leaving 8 s,
Driving 10 s with the blink toggling exactly at the ~600 ms gate, and
Settled 10 s; every override kind, Settled included, is cleared by the
expiry poll once its duration has elapsed (unless a new geofence event
replaces it first). -/
theorem geofence_duration_budgets (now : Nat) (st : SysState) :
    ((handleGeoMessage now "arrive" st).1.currentGeoState = .GEO_ARRIVED ∧
     (handleGeoMessage now "arrive" st).1.stateDuration = 15000 ∧
     (handleGeoMessage now "arrive" st).1.currentStateStart = now) ∧
    ((handleGeoMessage now "leave" st).1.currentGeoState = .GEO_LEAVE ∧
     (handleGeoMessage now "leave" st).1.stateDuration = 8000 ∧
     (handleGeoMessage now "leave" st).1.currentStateStart = now) ∧
    ((handleGeoMessage now "driving" st).1.currentGeoState = .GEO_DRIVING ∧
     (handleGeoMessage now "driving" st).1.stateDuration = 10000 ∧
     (handleGeoMessage now "driving" st).1.currentStateStart = now) ∧
    ((handleGeoMessage now "settled" st).1.currentGeoState = .GEO_SETTLED ∧
     (handleGeoMessage now "settled" st).1.stateDuration = 10000 ∧
     (handleGeoMessage now "settled" st).1.currentStateStart = now) ∧
    (∀ (e : Env) (st' : SysState), st'.dateActive = false →
      st'.currentGeoState = .GEO_DRIVING →
      ((renderTick e st').1.drivingOn ≠ st'.drivingOn ↔
        e.now - st'.lastDrivingUpdate ≥ 600)) ∧
    (∀ (e : Env) (st' : SysState), st'.dateActive = false →
      st'.currentGeoState ≠ .GEO_NONE →
      e.now - st'.currentStateStart ≥ st'.stateDuration →
      (renderTick e st').1.currentGeoState = .GEO_NONE) := by
  refine ⟨?_, ?_, ?_, ?_, ?_, ?_⟩
  · simp [handleGeoMessage, show strLower "arrive" = "arrive" from by decide]
  · simp [handleGeoMessage, show strLower "leave" = "leave" from by decide]
  · simp [handleGeoMessage, show strLower "driving" = "driving" from by decide]
  · simp [handleGeoMessage, show strLower "settled" = "settled" from by decide]
  · intro e st' hd hg
    have hk : geoKernelStep e st' = runDriving e st' := by
      unfold geoKernelStep
      rw [hg]
    simp only [renderTick, hd, hg, hk, runDriving]
    repeat' split
    all_goals simp_all
  · intro e st' hd hg hexp
    obtain ⟨t1, t2, t3, b, s, o, px, hEq⟩ := geoKernelStep_frame e st'
    simp only [renderTick, hEq, hd, hg]
    repeat' split
    all_goals simp_all

/-- C2 witness: an arrive at time 0 is armed with the 15 s budget, and a
driving override whose blink gate last fired at 0 toggles at 700 ms. -/
theorem geofence_duration_budgets_witness :
    (handleGeoMessage 0 "arrive" initState).1.stateDuration = 15000 ∧
    (renderTick (envAt 700) stWithGeo).1.drivingOn ≠ stWithGeo.drivingOn :=
  ⟨(geofence_duration_budgets 0 initState).1.2.1,
   ((geofence_duration_budgets 0 initState).2.2.2.2.1 (envAt 700) stWithGeo rfl
      rfl).mpr (by decide)⟩

/-- C3 counterexample: the transition into Breath taken by the local button
(here: leaving Private Pulse) sets the brightness cursor to 60, not 0, so
the claim that every transition into Breath resets the cursor to 0 fails. -/
theorem breath_button_entry_counterexample :
    (handleButtonPress 0 .offline stWithPulse).1.currentEffect = Effect.EFFECT_BREATH ∧
    (handleButtonPress 0 .offline stWithPulse).1.brightness ≠ 0 ∧
    (handleButtonPress 0 .offline stWithPulse).1.brightness = 60 := by
  decide

/-- C3 amended: every transition into Breath sets the fixed positive step 5,
but the reset value of the brightness cursor differs by path: the setmode
command resets it to 0, while both button paths into Breath (leaving Private
Pulse, and the mode rotation wrapping around from Weather) set it to 60. -/
theorem breath_entry_cursor (ppCode : String) (st : SysState) :
    (st.currentEffect ≠ .EFFECT_BREATH →
      ((processCommand ppCode
          (some ⟨some "setmode", some (.jstr "breath"), none⟩) st).1.currentEffect =
          .EFFECT_BREATH ∧
       (processCommand ppCode
          (some ⟨some "setmode", some (.jstr "breath"), none⟩) st).1.brightness = 0 ∧
       (processCommand ppCode
          (some ⟨some "setmode", some (.jstr "breath"), none⟩) st).1.brightnessStep = 5)) ∧
    (∀ (now : Nat) (f : WeatherFetch), st.dateActive = false →
      st.currentEffect = .EFFECT_PRIVATE_PULSE →
      ((handleButtonPress now f st).1.currentEffect = .EFFECT_BREATH ∧
       (handleButtonPress now f st).1.brightness = 60 ∧
       (handleButtonPress now f st).1.brightnessStep = 5)) ∧
    (∀ (now : Nat) (f : WeatherFetch), st.dateActive = false →
      st.currentEffect = .EFFECT_WEATHER →
      ((handleButtonPress now f st).1.currentEffect = .EFFECT_BREATH ∧
       (handleButtonPress now f st).1.brightness = 60 ∧
       (handleButtonPress now f st).1.brightnessStep = 5)) := by
  refine ⟨fun hne => ?_, fun now f hd hp => ?_, fun now f hd hw => ?_⟩
  · have hne' : Effect.EFFECT_BREATH ≠ st.currentEffect := fun h => hne h.symm
    simp [processCommand, asStr, resolveMode, hne',
      show strLower "setmode" = "setmode" from by decide,
      show strLower "breath" = "breath" from by decide]
  · simp [handleButtonPress, hd, hp]
  · simp [handleButtonPress, hd, hw, cycleNext, effIdx, effOfNat]

/-- C3 witness: from Private Pulse, setmode breath gives cursor 0 and the
button gives cursor 60. -/
theorem breath_entry_cursor_witness :
    (processCommand "x"
      (some ⟨some "setmode", some (.jstr "breath"), none⟩) stWithPulse).1.brightness = 0 ∧
    (handleButtonPress 3 .offline stWithPulse).1.brightness = 60 :=
  ⟨((breath_entry_cursor "x" stWithPulse).1 (by decide)).2.1,
   ((breath_entry_cursor "x" stWithPulse).2.1 3 .offline rfl rfl).2.1⟩

lemma getPixel_fillAll_zero (px : List Nat) (c : Nat) (h : px ≠ []) :
    getPixel (fillAll px c) 0 = c := by
  cases px with
  | nil => exact absurd rfl h
  | cons a rest => rfl

/-- C4: processing setcolor "#1A2B3C" and then getstate round-trips: the
getstate reply carries a snapshot with mode "static" and color "#1A2B3C",
and the getstate step itself changes nothing. -/
theorem setcolor_getstate_roundtrip (ppCode : String) (st : SysState)
    (hpx : st.pixels ≠ []) :
    (snapshotOf (processCommand ppCode (some setcolorDoc) st).1).mode = "static" ∧
    (snapshotOf (processCommand ppCode (some setcolorDoc) st).1).color =
      some "#1A2B3C" ∧
    (processCommand ppCode (some getstateDoc)
        (processCommand ppCode (some setcolorDoc) st).1).1 =
      (processCommand ppCode (some setcolorDoc) st).1 ∧
    (processCommand ppCode (some getstateDoc)
        (processCommand ppCode (some setcolorDoc) st).1).2 =
      [.reply (getCurrentStateJson (processCommand ppCode (some setcolorDoc) st).1)] := by
  have hsc : processCommand ppCode (some setcolorDoc) st =
      ({ st with currentEffect := .EFFECT_STATIC,
                 pixels := fillAll st.pixels 1715004 },
       [.broadcast (getCurrentStateJson
          { st with currentEffect := .EFFECT_STATIC,
                    pixels := fillAll st.pixels 1715004 })]) := rfl
  refine ⟨?_, ?_, rfl, rfl⟩
  · rw [hsc]
    rfl
  · rw [hsc]
    simp only [snapshotOf]
    rw [getPixel_fillAll_zero st.pixels 1715004 hpx]
    decide

/-- C4 witness: the round trip evaluated from the post-setup state. -/
theorem setcolor_getstate_roundtrip_witness :
    initState.pixels ≠ [] ∧
    (snapshotOf (processCommand "x" (some setcolorDoc) initState).1).color =
      some "#1A2B3C" :=
  ⟨by decide, (setcolor_getstate_roundtrip "x" initState (by decide)).2.1⟩

/-- C5: the snapshot builder is side-effect free and deterministic: a
getstate command returns the state unchanged with the serialized snapshot
as its only output, and a second getstate with no intervening command
produces the byte-identical reply. -/
theorem getstate_idempotent (ppCode : String) (st : SysState) :
    (processCommand ppCode (some getstateDoc) st).1 = st ∧
    (processCommand ppCode (some getstateDoc)
        (processCommand ppCode (some getstateDoc) st).1).2 =
      (processCommand ppCode (some getstateDoc) st).2 ∧
    (processCommand ppCode (some getstateDoc) st).2 =
      [.reply (getCurrentStateJson st)] :=
  ⟨rfl, rfl, rfl⟩

/-- C9 counterexample: a malformed setcolor payload is not ignored — the
value "#zzzzzz" is 7 characters starting with '#', so the handler accepts
it, switches to Static with a black fill (strtol parses no hex digits and
yields 0) and broadcasts a snapshot, changing the lighting state. -/
theorem malformed_setcolor_counterexample :
    (processCommand "x" (some zzDoc) initState).1 ≠ initState ∧
    (processCommand "x" (some zzDoc) initState).1.currentEffect =
      Effect.EFFECT_STATIC ∧
    (processCommand "x" (some zzDoc) initState).2 ≠ [] := by
  decide

/-- C9 amended: the handler leaves the entire state unchanged and emits
nothing exactly on its rejection set: JSON parse failure, missing or
unrecognized action, and recognized actions whose payload fails that
action's guard (setcolor value that is neither "off" nor a 7-character
string starting with '#', non-integer setbrightness, setmode resolving to
the current mode, wrong or missing privatepulse secret).  A setcolor value
of 7 characters starting with '#' is accepted even when the remaining
characters are not hex digits. -/
theorem rejected_commands_no_effect (ppCode : String) (msg : Option CmdDoc)
    (st : SysState) (h : cmdRejected ppCode msg st = true) :
    processCommand ppCode msg st = (st, []) := by
  cases msg with
  | none => rfl
  | some doc =>
    simp only [processCommand, cmdRejected] at h ⊢
    repeat' split
    all_goals simp_all

/-- C9 witness: the unknown command action "dance" is a no-op with no
snapshot. -/
theorem rejected_commands_no_effect_witness :
    processCommand "x" (some danceDoc) initState = (initState, []) :=
  rejected_commands_no_effect "x" (some danceDoc) initState (by decide)

/- Shared facts about the arbiter's geo-override branch. -/

lemma renderTick_geo_expire (e : Env) (st : SysState)
    (hd : st.dateActive = false) (hg : st.currentGeoState ≠ .GEO_NONE)
    (hexp : st.stateDuration ≤ e.now - st.currentStateStart) :
    (renderTick e st).1.currentGeoState = .GEO_NONE ∧
    (renderTick e st).2.1.length = 1 ∧
    (renderTick e st).1.currentEffect = st.currentEffect ∧
    (renderTick e st).1.dateActive = false := by
  obtain ⟨t1, t2, t3, b, s, o, px, hEq⟩ := geoKernelStep_frame e st
  simp only [renderTick, hd, hg, hEq]
  repeat' split
  all_goals simp_all

lemma renderTick_geo_live (e : Env) (st : SysState)
    (hd : st.dateActive = false) (hg : st.currentGeoState ≠ .GEO_NONE)
    (hlive : ¬ st.stateDuration ≤ e.now - st.currentStateStart) :
    (renderTick e st).1.currentGeoState = st.currentGeoState ∧
    (renderTick e st).2.1 = [] ∧
    (renderTick e st).1.currentEffect = st.currentEffect ∧
    (renderTick e st).1.dateActive = false := by
  obtain ⟨t1, t2, t3, b, s, o, px, hEq⟩ := geoKernelStep_frame e st
  simp only [renderTick, hd, hg, hEq]
  repeat' split
  all_goals simp_all

lemma renderTick_geo_driver (e : Env) (st : SysState)
    (hd : st.dateActive = false) (hg : st.currentGeoState ≠ .GEO_NONE) :
    (renderTick e st).2.2 = Driver.geo := by
  simp only [renderTick, hd, hg]
  repeat' split
  all_goals simp_all

lemma renderTick_baseline_driver (e : Env) (st : SysState)
    (hd : st.dateActive = false) (hg : st.currentGeoState = .GEO_NONE)
    (hp : st.currentEffect ≠ .EFFECT_PRIVATE_PULSE) :
    (renderTick e st).2.2 = Driver.baseline := by
  simp [renderTick, hd, hg, hp]

/-- C6: after an arrive event at time t0 the override is armed as
GEO_ARRIVED and the baseline mode variable is untouched; every arbiter tick
strictly before t0 + 15000 keeps the override alive and broadcasts nothing;
the first tick at or after t0 + 15000 clears the override, emits exactly
one snapshot broadcast, and leaves the pre-event baseline mode in place, so
a subsequent tick dispatches the baseline driver again (when the baseline
mode is not Private Pulse). -/
theorem arrive_expiry_one_broadcast (st : SysState) (t0 : Nat) (e : Env)
    (hd : st.dateActive = false) (hexp : e.now ≥ t0 + 15000) :
    (handleGeoMessage t0 "arrive" st).1.currentGeoState = .GEO_ARRIVED ∧
    (handleGeoMessage t0 "arrive" st).1.currentEffect = st.currentEffect ∧
    (∀ e' : Env, e'.now < t0 + 15000 →
      (renderTick e' (handleGeoMessage t0 "arrive" st).1).1.currentGeoState =
        .GEO_ARRIVED ∧
      (renderTick e' (handleGeoMessage t0 "arrive" st).1).2.1 = []) ∧
    (renderTick e (handleGeoMessage t0 "arrive" st).1).1.currentGeoState =
      .GEO_NONE ∧
    (renderTick e (handleGeoMessage t0 "arrive" st).1).2.1.length = 1 ∧
    (renderTick e (handleGeoMessage t0 "arrive" st).1).1.currentEffect =
      st.currentEffect ∧
    (renderTick e (handleGeoMessage t0 "arrive" st).1).1.dateActive = false ∧
    (st.currentEffect ≠ .EFFECT_PRIVATE_PULSE → ∀ e2 : Env,
      (renderTick e2 (renderTick e (handleGeoMessage t0 "arrive" st).1).1).2.2 =
        Driver.baseline) := by
  have hd1 : (handleGeoMessage t0 "arrive" st).1.dateActive = false := hd
  have hg1 : (handleGeoMessage t0 "arrive" st).1.currentGeoState ≠ .GEO_NONE :=
    fun h => GeoState.noConfusion h
  have hexp1 : (handleGeoMessage t0 "arrive" st).1.stateDuration ≤
      e.now - (handleGeoMessage t0 "arrive" st).1.currentStateStart := by
    show 15000 ≤ e.now - t0
    omega
  obtain ⟨hx1, hx2, hx3, hx4⟩ := renderTick_geo_expire e _ hd1 hg1 hexp1
  refine ⟨rfl, rfl, fun e' hlt => ?_, hx1, hx2, hx3, hx4, fun hp e2 => ?_⟩
  · have hlive : ¬ (handleGeoMessage t0 "arrive" st).1.stateDuration ≤
        e'.now - (handleGeoMessage t0 "arrive" st).1.currentStateStart := by
      show ¬ 15000 ≤ e'.now - t0
      omega
    obtain ⟨hy1, hy2, _, _⟩ := renderTick_geo_live e' _ hd1 hg1 hlive
    exact ⟨hy1, hy2⟩
  · refine renderTick_baseline_driver e2 _ hx4 hx1 ?_
    rw [hx3]
    exact hp

/-- C6 witness: from the post-setup state, an arrive at 0 followed by a
tick at 15000 clears the override with a single broadcast. -/
theorem arrive_expiry_one_broadcast_witness :
    (renderTick (envAt 15000)
        (handleGeoMessage 0 "arrive" initState).1).1.currentGeoState =
      GeoState.GEO_NONE ∧
    (renderTick (envAt 15000)
        (handleGeoMessage 0 "arrive" initState).1).2.1.length = 1 :=
  ⟨(arrive_expiry_one_broadcast initState 0 (envAt 15000) rfl (by decide)).2.2.2.1,
   (arrive_expiry_one_broadcast initState 0 (envAt 15000) rfl (by decide)).2.2.2.2.1⟩

/-- C7: while a special date is active, the arbiter dispatches only the
special-date kernel and every tick leaves the geofence override fields
(kind, start timestamp, duration) untouched; both ways the date window ends
— the minute check observing a non-matching date, or the button cancel —
clear only the date flags and preserve the geofence fields; and once the
date is inactive, a present override is again the dispatched driver. -/
theorem specialdate_preserves_geo_override (e : Env) (st : SysState) :
    (st.dateActive = true →
      ((renderTick e st).1.currentGeoState = st.currentGeoState ∧
       (renderTick e st).1.currentStateStart = st.currentStateStart ∧
       (renderTick e st).1.stateDuration = st.stateDuration ∧
       (renderTick e st).2.2 = Driver.specialDate)) ∧
    (st.dateActive = false → st.currentGeoState ≠ .GEO_NONE →
      (renderTick e st).2.2 = Driver.geo) ∧
    (∀ (now m d : Nat), findMatch m d = none → st.dateActive = true →
      ((checkStartDate now (some (m, d)) st).1.dateActive = false ∧
       (checkStartDate now (some (m, d)) st).1.currentGeoState =
         st.currentGeoState ∧
       (checkStartDate now (some (m, d)) st).1.currentStateStart =
         st.currentStateStart ∧
       (checkStartDate now (some (m, d)) st).1.stateDuration =
         st.stateDuration)) ∧
    (∀ (now : Nat) (f : WeatherFetch), st.dateActive = true →
      ((handleButtonPress now f st).1.dateActive = false ∧
       (handleButtonPress now f st).1.currentGeoState = st.currentGeoState ∧
       (handleButtonPress now f st).1.currentStateStart = st.currentStateStart ∧
       (handleButtonPress now f st).1.stateDuration = st.stateDuration)) := by
  refine ⟨fun hd => ?_, fun hd hg => renderTick_geo_driver e st hd hg,
    fun now m d hfm hd => ?_, fun now f hd => ?_⟩
  · obtain ⟨t, px, ap, ab, sp, hEq⟩ := specialAnim_frame e st
    simp [renderTick, hd, hEq]
  · simp [checkStartDate, hfm, hd]
  · simp only [handleButtonPress, hd]
    repeat' split
    all_goals simp_all

/-- C7 witness: with a special date active over a driving override, the
tick preserves the override kind and the special-date driver renders. -/
theorem specialdate_preserves_geo_override_witness :
    (renderTick (envAt 0)
        { stWithGeo with dateActive := true,
                         activeEventIndex := 0 }).1.currentGeoState =
      GeoState.GEO_DRIVING ∧
    (renderTick (envAt 0)
        { stWithGeo with dateActive := true, activeEventIndex := 0 }).2.2 =
      Driver.specialDate :=
  ⟨((specialdate_preserves_geo_override (envAt 0)
      { stWithGeo with dateActive := true, activeEventIndex := 0 }).1 rfl).1.trans
      (by decide),
   ((specialdate_preserves_geo_override (envAt 0)
      { stWithGeo with dateActive := true, activeEventIndex := 0 }).1 rfl).2.2.2⟩

lemma getD_set_self (l : List Int) (i : Nat) (a : Int) (h : i < l.length) :
    (l.set i a).getD i (-1) = a := by
  rw [List.getD_eq_getElem?_getD, List.getElem?_eq_getElem (by simpa using h)]
  simp

lemma startSpecialEvent_lastPlayedDay (now : Nat) (idx : Int) (st : SysState) :
    (startSpecialEvent now idx st).1.lastPlayedDay = st.lastPlayedDay := by
  unfold startSpecialEvent
  split <;> rfl

/-- C8: each calendar entry plays at most once per day.  A date check on a
day whose value is already recorded in the entry's last-played cell never
invokes startSpecialEvent again; when a check does start the entry, it
records the current day in that cell in the same step; and the button
cancel records the entry's calendar day (the current day while the date
condition holds) before clearing the date flags. -/
theorem special_date_once_per_day (st : SysState) :
    (∀ (now m d i : Nat), findMatch m d = some i →
      st.lastPlayedDay.getD i (-1) = (d : Int) →
      (checkStartDate now (some (m, d)) st).2.2 = false) ∧
    (∀ (now m d i : Nat), findMatch m d = some i →
      i < st.lastPlayedDay.length →
      (checkStartDate now (some (m, d)) st).2.2 = true →
      (checkStartDate now (some (m, d)) st).1.lastPlayedDay.getD i (-1) =
        (d : Int)) ∧
    (∀ (now : Nat) (f : WeatherFetch) (i : Nat),
      st.dateActive = true → st.activeEventIndex = (i : Int) →
      i < numDates → i < st.lastPlayedDay.length →
      (handleButtonPress now f st).1.lastPlayedDay.getD i (-1) =
        ((dates.getD i dummyEvent).day : Int)) := by
  refine ⟨fun now m d i hfm hplayed => ?_, fun now m d i hfm hlen hstart => ?_,
    fun now f i hd hidx hi hlen => ?_⟩
  · simp only [checkStartDate, hfm]
    repeat' split
    all_goals simp_all
  · simp only [checkStartDate, hfm] at hstart ⊢
    by_cases h1 : st.dateActive = true ∧ st.activeEventIndex = (i : Int)
    · rw [if_pos h1] at hstart
      exact absurd hstart (by simp)
    · rw [if_neg h1] at hstart ⊢
      by_cases h2 : st.lastPlayedDay.getD i (-1) ≠ (d : Int)
      · rw [if_pos h2]
        show ((startSpecialEvent now (i : Int) st).1.lastPlayedDay.set i
            (d : Int)).getD i (-1) = (d : Int)
        rw [startSpecialEvent_lastPlayedDay]
        exact getD_set_self st.lastPlayedDay i (d : Int) hlen
      · rw [if_neg h2] at hstart
        exact absurd hstart (by simp)
  · have hc : 0 ≤ st.activeEventIndex ∧ st.activeEventIndex < (numDates : Int) := by
      rw [hidx]
      exact ⟨Int.ofNat_nonneg i, by exact_mod_cast hi⟩
    simp only [handleButtonPress, hd, hc, if_true, and_self, ite_true]
    rw [hidx]
    simp only [Int.toNat_natCast]
    exact getD_set_self st.lastPlayedDay i _ hlen

/-- C8 witness: on January 1st with the NewYear entry already marked for
day 1, the date check does not start the animation again. -/
theorem special_date_once_per_day_witness :
    (checkStartDate 0 (some (1, 1))
        { initState with
            lastPlayedDay := initState.lastPlayedDay.set 0 1 }).2.2 = false :=
  (special_date_once_per_day
      { initState with lastPlayedDay := initState.lastPlayedDay.set 0 1 }).1
    0 1 1 0 (by decide) (by decide)

/-- C10: every message on the geofence feed — recognized or not — triggers
at least one snapshot broadcast (the handler broadcasts unconditionally
after the keyword chain), and a pulse/missyou message triggers two
broadcasts in the same tick. -/
theorem geofeed_always_broadcasts (now : Nat) (raw : String) (st : SysState) :
    1 ≤ (handleGeoMessage now raw st).2.length ∧
    (strLower raw = "pulse" ∨ strLower raw = "missyou" →
      (handleGeoMessage now raw st).2.length = 2) := by
  refine ⟨?_, fun hp => ?_⟩
  · simp only [handleGeoMessage]
    repeat' split
    all_goals simp
  · rcases hp with h | h <;> simp [handleGeoMessage, h]

/-- C10 witness: a missyou message (case-folded) produces exactly two
broadcasts. -/
theorem geofeed_always_broadcasts_witness :
    (handleGeoMessage 7 "MissYou" initState).2.length = 2 :=
  (geofeed_always_broadcasts 7 "MissYou" initState).2 (Or.inr (by decide))

end Lamp

